import Mathlib

/-!
Verification of the flight-dynamics core of the flight_simulator repository.

The development shallowly embeds the TypeScript sources
`src/physics/aerodynamics.ts`, the advanced aerodynamics module
(`AdvancedAerodynamics`), the aircraft constants table and the aircraft-type
validator into Lean.  Numbers are modelled as real numbers; three.js `Vector3`
and `Euler` values become records of reals, and the in-place mutation
performed by three.js methods (`normalize`, `multiplyScalar`, `divideScalar`)
is made explicit by returning the new value and rebinding, so every embedded
function computes exactly the values the JavaScript computes.
-/

namespace FlightSim

open Real

/-- Value-level model of a three.js `Vector3`. -/
structure Vec3 where
  x : ℝ
  y : ℝ
  z : ℝ

namespace Vec3

def add (v w : Vec3) : Vec3 := ⟨v.x + w.x, v.y + w.y, v.z + w.z⟩

def sub (v w : Vec3) : Vec3 := ⟨v.x - w.x, v.y - w.y, v.z - w.z⟩

def multiplyScalar (v : Vec3) (s : ℝ) : Vec3 := ⟨v.x * s, v.y * s, v.z * s⟩

/-- three.js `divideScalar` multiplies by the reciprocal. -/
noncomputable def divideScalar (v : Vec3) (s : ℝ) : Vec3 := v.multiplyScalar (1 / s)

def dot (v w : Vec3) : ℝ := v.x * w.x + v.y * w.y + v.z * w.z

def lengthSq (v : Vec3) : ℝ := v.x * v.x + v.y * v.y + v.z * v.z

noncomputable def length (v : Vec3) : ℝ := Real.sqrt (v.x * v.x + v.y * v.y + v.z * v.z)

/-- three.js `normalize`: `divideScalar(this.length() || 1)`; the zero vector
is left unchanged (JavaScript `||` replaces the falsy length 0 by 1). -/
noncomputable def normalize (v : Vec3) : Vec3 :=
  v.multiplyScalar (1 / (if v.length = 0 then 1 else v.length))

/-- three.js `projectOnVector`: zero if the target has zero squared length. -/
noncomputable def projectOnVector (v n : Vec3) : Vec3 :=
  if n.lengthSq = 0 then ⟨0, 0, 0⟩ else n.multiplyScalar ((n.dot v) / n.lengthSq)

/-- three.js `projectOnPlane planeNormal`: subtract the projection on the normal. -/
noncomputable def projectOnPlane (v n : Vec3) : Vec3 := v.sub (v.projectOnVector n)

end Vec3

/-- Value-level model of a three.js `Euler` (default order XYZ). -/
structure EulerRot where
  x : ℝ
  y : ℝ
  z : ℝ

/-- three.js `Vector3.applyEuler` for order XYZ: the rotation matrix is
`Rx(e.x) * Ry(e.y) * Rz(e.z)` (transcribed from `Matrix4.makeRotationFromEuler`). -/
noncomputable def applyEuler (v : Vec3) (e : EulerRot) : Vec3 :=
  let a := Real.cos e.x
  let b := Real.sin e.x
  let c := Real.cos e.y
  let d := Real.sin e.y
  let e2 := Real.cos e.z
  let f := Real.sin e.z
  ⟨c * e2 * v.x + (-(c * f)) * v.y + d * v.z,
   (a * f + b * e2 * d) * v.x + (a * e2 - b * f * d) * v.y + (-(b * c)) * v.z,
   (b * f - a * e2 * d) * v.x + (b * e2 + a * f * d) * v.y + (a * c) * v.z⟩

/-- JavaScript `Math.atan2`. -/
noncomputable def atan2 (y x : ℝ) : ℝ :=
  if 0 < x then Real.arctan (y / x)
  else if x < 0 then
    (if 0 ≤ y then Real.arctan (y / x) + Real.pi else Real.arctan (y / x) - Real.pi)
  else if 0 < y then Real.pi / 2
  else if y < 0 then -(Real.pi / 2)
  else 0

/-- `src/types/index.ts` `Aircraft`.  The `type` field is a string: the
runtime validator in `errorHandler.ts` treats it as untrusted input. -/
structure Aircraft where
  id : String
  type : String
  position : Vec3
  rotation : EulerRot
  velocity : Vec3
  fuel : ℝ
  damage : ℝ
  engineRPM : ℝ
  throttle : ℝ
  altitude : ℝ
  airspeed : ℝ
  verticalSpeed : ℝ
  heading : ℝ
  flaps : ℝ
  landingGear : Bool
  brakes : Bool
  gForce : ℝ

/-- `src/types/index.ts` `ControlInputs`. -/
structure ControlInputs where
  pitch : ℝ
  roll : ℝ
  yaw : ℝ
  throttle : ℝ
  flaps : ℝ
  landingGear : Bool
  brakes : Bool
  autopilot : Bool

/-- `src/types/index.ts` `WeatherConditions`. -/
structure WeatherConditions where
  windDirection : ℝ
  windSpeed : ℝ
  visibility : ℝ
  cloudCover : ℝ
  precipitation : String
  turbulence : ℝ
  temperature : ℝ
  pressure : ℝ

/-- `src/types/index.ts` `AircraftSpecs`. -/
structure AircraftSpecs where
  maxSpeed : ℝ
  stallSpeed : ℝ
  cruiseSpeed : ℝ
  maxAltitude : ℝ
  climbRate : ℝ
  weight : ℝ
  fuelCapacity : ℝ
  fuelConsumption : ℝ
  enginePower : ℝ
  wingArea : ℝ
  dragCoefficient : ℝ
  liftCoefficient : ℝ

/-- `constants` table entry for the Cessna 172. -/
noncomputable def cessna172Specs : AircraftSpecs :=
  { maxSpeed := 302, stallSpeed := 87, cruiseSpeed := 226, maxAltitude := 4100
    climbRate := 3.66, weight := 650, fuelCapacity := 212, fuelConsumption := 32
    enginePower := 180, wingArea := 16.2, dragCoefficient := 0.020
    liftCoefficient := 2.0 }

/-- `constants` table entry for the Boeing 737. -/
noncomputable def boeing737Specs : AircraftSpecs :=
  { maxSpeed := 876, stallSpeed := 250, cruiseSpeed := 850, maxAltitude := 12500
    climbRate := 15, weight := 25000, fuelCapacity := 26000, fuelConsumption := 2600
    enginePower := 50000, wingArea := 125, dragCoefficient := 0.010
    liftCoefficient := 3.0 }

/-- `constants` table entry for the F-16. -/
noncomputable def f16Specs : AircraftSpecs :=
  { maxSpeed := 2120, stallSpeed := 204, cruiseSpeed := 1320, maxAltitude := 18000
    climbRate := 254, weight := 6000, fuelCapacity := 3200, fuelConsumption := 1500
    enginePower := 130000, wingArea := 27.9, dragCoefficient := 0.010
    liftCoefficient := 1.8 }

/-- `AIRCRAFT_SPECS` record, modelled as a partial lookup by type string. -/
noncomputable def AIRCRAFT_SPECS (t : String) : Option AircraftSpecs :=
  if t = "cessna172" then some cessna172Specs
  else if t = "boeing737" then some boeing737Specs
  else if t = "f16" then some f16Specs
  else none

/-- `errorHandler.ts` `isValidAircraftType`. -/
def isValidAircraftType (t : String) : Bool :=
  t == "cessna172" || t == "boeing737" || t == "f16"

/-- `errorHandler.ts` `validateAircraftType`: unknown types are logged and
replaced by the `cessna172` default. -/
def validateAircraftType (t : String) : String :=
  if isValidAircraftType t then t else "cessna172"

/-- `aerodynamics.ts` `getAirDensity`: standard-atmosphere barometric formula
with `T0 = 288.15`, `L = -0.0065`, `P0 = 101325`, `R = 287.05`, `g = 9.81`
(the `temperature` local is inlined). -/
noncomputable def getAirDensity (altitude : ℝ) : ℝ :=
  101325 * ((288.15 + (-0.0065) * altitude) / 288.15) ^
      (((-9.81 : ℝ)) / ((-0.0065) * 287.05)) /
    (287.05 * (288.15 + (-0.0065) * altitude))

/-- Closed form used for monotonicity: for positive temperature the density is
a positive constant times `(T/T0) ^ (g/(L R) - 1)` with a positive exponent. -/
theorem getAirDensity_eq (h : ℝ) (hT : 0 < 288.15 + (-0.0065) * h) :
    getAirDensity h =
      (101325 / (287.05 * 288.15)) *
        ((288.15 + (-0.0065) * h) / 288.15) ^
          (((-9.81 : ℝ)) / ((-0.0065) * 287.05) - 1) := by
  have hTdiv : (0:ℝ) < (288.15 + (-0.0065) * h) / 288.15 := by positivity
  rw [getAirDensity, Real.rpow_sub hTdiv, Real.rpow_one]
  set T := 288.15 + (-0.0065) * h with hTdef
  generalize (T / 288.15) ^ (((-9.81 : ℝ)) / ((-0.0065) * 287.05)) = P
  have hTne : T ≠ 0 := ne_of_gt hT
  field_simp
  ring

/-- C8: the atmosphere density function returns 1.225 kg/m³ within ±0.01 at
altitude 0, and is strictly decreasing on altitudes in [0, 12000] m. -/
theorem getAirDensity_sea_level_and_strictly_decreasing (h1 h2 : ℝ)
    (hh1 : 0 ≤ h1) (h12 : h1 < h2) (hh2 : h2 ≤ 12000) :
    |getAirDensity 0 - 1.225| ≤ 0.01 ∧ getAirDensity h2 < getAirDensity h1 := by
  constructor
  · have hbase : (288.15 + (-0.0065) * (0:ℝ)) / 288.15 = 1 := by norm_num
    rw [getAirDensity, hbase, Real.one_rpow, abs_le]
    constructor <;> norm_num
  · have hT1 : (0:ℝ) < 288.15 + (-0.0065) * h1 := by nlinarith
    have hT2 : (0:ℝ) < 288.15 + (-0.0065) * h2 := by nlinarith
    rw [getAirDensity_eq h1 hT1, getAirDensity_eq h2 hT2]
    have hcpos : (0:ℝ) < ((-9.81 : ℝ)) / ((-0.0065) * 287.05) - 1 := by norm_num
    have hbase : (288.15 + (-0.0065) * h2) / 288.15 <
        (288.15 + (-0.0065) * h1) / 288.15 := by
      rw [div_lt_div_iff_of_pos_right (by norm_num : (0:ℝ) < 288.15)]
      nlinarith
    have hpow :
        ((288.15 + (-0.0065) * h2) / 288.15) ^
            (((-9.81 : ℝ)) / ((-0.0065) * 287.05) - 1) <
          ((288.15 + (-0.0065) * h1) / 288.15) ^
            (((-9.81 : ℝ)) / ((-0.0065) * 287.05) - 1) :=
      Real.rpow_lt_rpow (by positivity) hbase hcpos
    have hc : (0:ℝ) < 101325 / (287.05 * 288.15) := by norm_num
    exact mul_lt_mul_of_pos_left hpow hc

/-- Witness for C8 at altitudes 0 and 1000 m. -/
theorem getAirDensity_sea_level_and_strictly_decreasing_witness :
    |getAirDensity 0 - 1.225| ≤ 0.01 ∧ getAirDensity 1000 < getAirDensity 0 :=
  getAirDensity_sea_level_and_strictly_decreasing 0 1000 (by norm_num)
    (by norm_num) (by norm_num)

/-- `aerodynamics.ts` `calculateLift`: dynamic pressure times wing area times
an angle-of-attack–adjusted lift coefficient, directed along the body-up axis. -/
noncomputable def calculateLift (velocity : Vec3) (airDensity wingArea
    liftCoefficient angleOfAttack : ℝ) (aircraft : Aircraft) : Vec3 :=
  let speed := velocity.length
  let dynamicPressure := 0.5 * airDensity * speed * speed
  let adjustedLiftCoeff :=
    if aircraft.type = "f16" then
      (if -0.1 ≤ angleOfAttack ∧ angleOfAttack ≤ 0.35 then
        liftCoefficient * (1 + angleOfAttack * 5)
      else if 0.35 < angleOfAttack ∧ angleOfAttack ≤ 0.52 then
        liftCoefficient * (2.75 - (angleOfAttack - 0.35) * 2)
      else if 0.52 < angleOfAttack then liftCoefficient * 0.4
      else liftCoefficient)
    else
      (if -0.1 ≤ angleOfAttack ∧ angleOfAttack ≤ 0.25 then
        liftCoefficient * (1 + angleOfAttack * 4)
      else if 0.25 < angleOfAttack then
        liftCoefficient * max 0.3 (1 - (angleOfAttack - 0.25) * 3)
      else liftCoefficient)
  let liftMagnitude := dynamicPressure * wingArea * adjustedLiftCoeff
  (applyEuler ⟨0, 1, 0⟩ aircraft.rotation).multiplyScalar liftMagnitude

/-- `aerodynamics.ts` `calculateDrag`: early return of the zero vector at zero
speed, otherwise dynamic pressure times wing area times a gear-adjusted drag
coefficient, opposite to the velocity direction. -/
noncomputable def calculateDrag (velocity : Vec3) (airDensity wingArea
    dragCoefficient : ℝ) (aircraft : Aircraft) : Vec3 :=
  let speed := velocity.length
  if speed = 0 then ⟨0, 0, 0⟩
  else
    let dynamicPressure := 0.5 * airDensity * speed * speed
    let adjustedDragCoeff :=
      if aircraft.landingGear then dragCoefficient * 1.3 else dragCoefficient
    let dragMagnitude := dynamicPressure * wingArea * adjustedDragCoeff
    velocity.normalize.multiplyScalar (-dragMagnitude)

/-- `aerodynamics.ts` `calculateThrust`, scalar part: the thrust magnitude per
aircraft type before it is applied to the forward axis. -/
noncomputable def calculateThrustMag (throttle enginePower airDensity
    altitude airspeedKmh : ℝ) (aircraftType : String) : ℝ :=
  let densityRatio := airDensity / 1.225
  let altitudeFactor := densityRatio ^ ((0.7 : ℝ))
  if aircraftType = "boeing737" then
    let maxThrustPerEngine := (1920000 : ℝ)
    let totalMaxThrust := maxThrustPerEngine * 2
    let jetEfficiency := (5.0 : ℝ)
    let jetAltitudeFactor :=
      if altitude < 3000 then (4.0 : ℝ) else densityRatio ^ ((0.05 : ℝ))
    throttle * totalMaxThrust * jetAltitudeFactor * jetEfficiency
  else if aircraftType = "f16" then
    let maxThrust := (1100000 : ℝ)
    let maxThrustAB := 1100000 * 3.0
    let abThreshold := (0.5 : ℝ)
    let f16AltitudeFactor :=
      if altitude < 2000 then (3.0 : ℝ) else densityRatio ^ ((0.1 : ℝ))
    let base :=
      if throttle ≤ abThreshold then
        (throttle / abThreshold) * maxThrust * f16AltitudeFactor * 2.5
      else
        let abPower := (throttle - abThreshold) / (1 - abThreshold)
        maxThrust * f16AltitudeFactor * 2.5 +
          abPower * (maxThrustAB - maxThrust) * f16AltitudeFactor * 2.0
    let machNumber := airspeedKmh / 1225
    if machNumber > 1.2 then base * max 0.8 (1.3 - machNumber * 0.2) else base
  else
    let staticThrust := (30000 : ℝ)
    let airspeedMs := airspeedKmh / 3.6
    let propellerEfficiency :=
      if airspeedMs ≤ 30 then (4.0 : ℝ)
      else if airspeedMs ≤ 50 then 3.5
      else if airspeedMs > 60 then max 1.5 (3.0 - (airspeedMs - 60) / 60)
      else 1.0
    let groundBonus := if altitude < 150 then (3.5 : ℝ) else 1.0
    throttle * staticThrust * altitudeFactor * propellerEfficiency * groundBonus

/-- `aerodynamics.ts` `calculateThrust`: the returned vector (the code mutates
the caller's `forward` vector in place and returns it scaled). -/
noncomputable def calculateThrust (throttle enginePower airDensity altitude : ℝ)
    (forward : Vec3) (airspeedKmh : ℝ) (aircraftType : String) : Vec3 :=
  forward.multiplyScalar
    (calculateThrustMag throttle enginePower airDensity altitude airspeedKmh
      aircraftType)

/-- `aerodynamics.ts` `calculateGravity`. -/
noncomputable def calculateGravity (mass : ℝ) : Vec3 := ⟨0, -(9.81) * mass, 0⟩

/-- The zero vector has length 0. -/
theorem zeroVec_length : (Vec3.mk 0 0 0).length = 0 := by
  simp [Vec3.length]

/-- Zero velocity gives exactly zero lift: the dynamic pressure vanishes. -/
theorem calculateLift_zero_velocity (airDensity wingArea liftCoefficient
    angleOfAttack : ℝ) (aircraft : Aircraft) :
    calculateLift ⟨0, 0, 0⟩ airDensity wingArea liftCoefficient angleOfAttack
      aircraft = ⟨0, 0, 0⟩ := by
  simp only [calculateLift, zeroVec_length, applyEuler, Vec3.multiplyScalar]
  norm_num

/-- Zero velocity gives exactly zero drag: the guard returns early. -/
theorem calculateDrag_zero_velocity (airDensity wingArea dragCoefficient : ℝ)
    (aircraft : Aircraft) :
    calculateDrag ⟨0, 0, 0⟩ airDensity wingArea dragCoefficient aircraft =
      ⟨0, 0, 0⟩ := by
  simp only [calculateDrag, zeroVec_length, if_pos]

/-- C9: with a zero velocity vector, `calculateLift` and `calculateDrag` both
return exactly the zero vector, for every density, wing area, coefficient,
angle of attack and aircraft. -/
theorem lift_drag_zero_velocity (airDensity wingArea liftCoefficient
    dragCoefficient angleOfAttack : ℝ) (aircraft : Aircraft) :
    calculateLift ⟨0, 0, 0⟩ airDensity wingArea liftCoefficient angleOfAttack
        aircraft = ⟨0, 0, 0⟩ ∧
      calculateDrag ⟨0, 0, 0⟩ airDensity wingArea dragCoefficient aircraft =
        ⟨0, 0, 0⟩ :=
  ⟨calculateLift_zero_velocity airDensity wingArea liftCoefficient
      angleOfAttack aircraft,
    calculateDrag_zero_velocity airDensity wingArea dragCoefficient aircraft⟩

/-- C3: at fixed altitude, non-negative air density and airspeed, the thrust
magnitude is monotonically non-decreasing in throttle on [0, 1] for every
aircraft type; for positive density the f16 thrust at throttle 0.9 is strictly
greater than at throttle 0.7. -/
theorem thrust_monotone_in_throttle (aircraftType : String)
    (enginePower airDensity altitude airspeedKmh t1 t2 : ℝ)
    (hρ : 0 ≤ airDensity) (h1 : 0 ≤ t1) (h12 : t1 ≤ t2) (h2 : t2 ≤ 1) :
    calculateThrustMag t1 enginePower airDensity altitude airspeedKmh
        aircraftType ≤
      calculateThrustMag t2 enginePower airDensity altitude airspeedKmh
        aircraftType ∧
    (0 < airDensity →
      calculateThrustMag 0.7 enginePower airDensity altitude airspeedKmh
          "f16" <
        calculateThrustMag 0.9 enginePower airDensity altitude airspeedKmh
          "f16") := by
  have hratio : (0:ℝ) ≤ airDensity / 1.225 := by positivity
  constructor
  · by_cases hb : aircraftType = "boeing737"
    · simp only [calculateThrustMag, hb, if_true, if_pos]
      have hjaf : (0:ℝ) ≤
          (if altitude < 3000 then (4.0:ℝ)
            else (airDensity / 1.225) ^ ((0.05 : ℝ))) := by
        split_ifs
        · norm_num
        · exact Real.rpow_nonneg hratio _
      gcongr
    · by_cases hf : aircraftType = "f16"
      · simp only [calculateThrustMag, hb, hf, if_false, if_true, if_pos,
          if_neg (by simp : ¬("f16" = "boeing737"))]
        have hfa : (0:ℝ) ≤
            (if altitude < 2000 then (3.0:ℝ)
              else (airDensity / 1.225) ^ ((0.1 : ℝ))) := by
          split_ifs
          · norm_num
          · exact Real.rpow_nonneg hratio _
        set F : ℝ := (if altitude < 2000 then (3.0:ℝ)
          else (airDensity / 1.225) ^ ((0.1 : ℝ))) with hF
        have hbase :
            (if t1 ≤ 0.5 then t1 / 0.5 * 1100000 * F * 2.5
              else 1100000 * F * 2.5 +
                (t1 - 0.5) / (1 - 0.5) * (1100000 * 3.0 - 1100000) * F * 2.0) ≤
            (if t2 ≤ 0.5 then t2 / 0.5 * 1100000 * F * 2.5
              else 1100000 * F * 2.5 +
                (t2 - 0.5) / (1 - 0.5) * (1100000 * 3.0 - 1100000) * F * 2.0) := by
          rcases le_or_lt t2 0.5 with hb2 | hb2
          · rw [if_pos (le_trans h12 hb2), if_pos hb2]
            gcongr
          · rw [if_neg (not_le.mpr hb2)]
            rcases le_or_lt t1 0.5 with ha | ha
            · rw [if_pos ha]
              have hle1 : t1 / 0.5 * 1100000 * F * 2.5 ≤ 1100000 * F * 2.5 := by
                have ht : t1 / 0.5 ≤ 1 := by
                  rw [div_le_one (by norm_num)]
                  linarith
                nlinarith
              have hge : (0:ℝ) ≤
                  (t2 - 0.5) / (1 - 0.5) * (1100000 * 3.0 - 1100000) * F * 2.0 := by
                have ht2 : (0:ℝ) ≤ (t2 - 0.5) / (1 - 0.5) := by
                  apply div_nonneg _ (by norm_num)
                  linarith
                positivity
              linarith
            · rw [if_neg (not_le.mpr ha)]
              gcongr
        by_cases hm : airspeedKmh / 1225 > 1.2
        · rw [if_pos hm, if_pos hm]
          exact mul_le_mul_of_nonneg_right hbase
            (le_trans (by norm_num) (le_max_left 0.8 _))
        · rw [if_neg hm, if_neg hm]
          exact hbase
      · simp only [calculateThrustMag, hb, hf, if_false,
          if_neg (fun hh => hb hh), if_neg (fun hh => hf hh)]
        have haf : (0:ℝ) ≤ (airDensity / 1.225) ^ ((0.7 : ℝ)) :=
          Real.rpow_nonneg hratio _
        have heff : (0:ℝ) ≤
            (if airspeedKmh / 3.6 ≤ 30 then (4.0:ℝ)
              else if airspeedKmh / 3.6 ≤ 50 then 3.5
              else if airspeedKmh / 3.6 > 60 then
                max 1.5 (3.0 - (airspeedKmh / 3.6 - 60) / 60)
              else 1.0) := by
          split_ifs
          · norm_num
          · norm_num
          · exact le_trans (by norm_num) (le_max_left 1.5 _)
          · norm_num
        have hgb : (0:ℝ) ≤ (if altitude < 150 then (3.5:ℝ) else 1.0) := by
          split_ifs <;> norm_num
        gcongr
  · intro hρpos
    have hb737 : ("f16" = "boeing737") = False := by simp
    have hf16 : ("f16" = "f16") = True := by simp
    simp only [calculateThrustMag, hb737, hf16, if_false, if_true]
    have hFpos : (0:ℝ) <
        (if altitude < 2000 then (3.0:ℝ)
          else (airDensity / 1.225) ^ ((0.1 : ℝ))) := by
      split_ifs
      · norm_num
      · exact Real.rpow_pos_of_pos (by positivity) _
    set F : ℝ := (if altitude < 2000 then (3.0:ℝ)
      else (airDensity / 1.225) ^ ((0.1 : ℝ))) with hF
    have h7 : ¬((0.7:ℝ) ≤ 0.5) := by norm_num
    have h9 : ¬((0.9:ℝ) ≤ 0.5) := by norm_num
    rw [if_neg h7, if_neg h9]
    have hbase :
        1100000 * F * 2.5 +
            ((0.7:ℝ) - 0.5) / (1 - 0.5) * (1100000 * 3.0 - 1100000) * F * 2.0 <
          1100000 * F * 2.5 +
            ((0.9:ℝ) - 0.5) / (1 - 0.5) * (1100000 * 3.0 - 1100000) * F * 2.0 := by
      nlinarith
    by_cases hm : airspeedKmh / 1225 > 1.2
    · rw [if_pos hm, if_pos hm]
      exact mul_lt_mul_of_pos_right hbase
        (lt_of_lt_of_le (by norm_num) (le_max_left 0.8 _))
    · rw [if_neg hm, if_neg hm]
      exact hbase

/-- Witness for C3: a concrete monotone pair for the cessna and the strict
f16 afterburner comparison at sea level. -/
theorem thrust_monotone_in_throttle_witness :
    calculateThrustMag 0.5 180 1.225 0 0 "cessna172" ≤
        calculateThrustMag 0.9 180 1.225 0 0 "cessna172" ∧
      calculateThrustMag 0.7 130000 1.225 0 0 "f16" <
        calculateThrustMag 0.9 130000 1.225 0 0 "f16" := by
  have h := thrust_monotone_in_throttle "cessna172" 180 1.225 0 0 0.5 0.9
    (by norm_num) (by norm_num) (by norm_num) (by norm_num)
  have h2 := thrust_monotone_in_throttle "f16" 130000 1.225 0 0 0.5 0.9
    (by norm_num) (by norm_num) (by norm_num) (by norm_num)
  exact ⟨h.1, h2.2 (by norm_num)⟩

section AdvancedAero

open Classical

/-- `AdvancedAerodynamicState['stallState']` (the `spin` value is declared in
the union type but never produced by `calculateStallState`). -/
inductive StallState where
  | clean
  | approaching
  | stalled
  | deep_stall
  | spin
deriving DecidableEq

/-- `AdvancedAerodynamicState['spinType']`. -/
inductive SpinType where
  | none
  | incipient
  | developed
  | flat
deriving DecidableEq

/-- Base critical angle of attack per type plus the flap bonus
(`criticalAoA += flaps / 40 * 0.1` when flaps are deployed), from
`AdvancedAerodynamics.calculateStallState`. -/
noncomputable def criticalAoAOf (a : Aircraft) : ℝ :=
  (if a.type = "f16" then (0.35:ℝ)
    else if a.type = "boeing737" then 0.25 else 0.30) +
    (if 0 < a.flaps then a.flaps / 40 * 0.1 else 0)

/-- Deep-stall angle of attack per type from
`AdvancedAerodynamics.calculateStallState` (no flap adjustment). -/
noncomputable def deepStallAoAOf (a : Aircraft) : ℝ :=
  if a.type = "f16" then (0.52:ℝ)
  else if a.type = "boeing737" then 0.35 else 0.42

/-- Speed ratio `speedStallFactor = speed / stallSpeed` where
`stallSpeed = specs.stallSpeed / 3.6`; the source computes it before the
flap and g adjustments to `stallSpeed`. -/
noncomputable def speedRatioOf (specs : AircraftSpecs) (speed : ℝ) : ℝ :=
  speed / (specs.stallSpeed / 3.6)

/-- The `effectiveStallSpeed` local of
`AdvancedAerodynamics.calculateStallState`: the stall speed reduced by flap
deployment and scaled by `sqrt |gForce|`.  The source computes this value but
never uses it in the classification comparisons. -/
noncomputable def effectiveStallSpeedOf (specs : AircraftSpecs)
    (a : Aircraft) : ℝ :=
  specs.stallSpeed / 3.6 *
      (if 0 < a.flaps then 1 - a.flaps / 40 * 0.3 else 1) *
    Real.sqrt |a.gForce|

/-- Deep-stall branch condition of the classifier cascade. -/
noncomputable def deepStallCond (specs : AircraftSpecs) (a : Aircraft)
    (angleOfAttack speed : ℝ) : Prop :=
  deepStallAoAOf a < angleOfAttack ∨
    (speedRatioOf specs speed < 0.7 ∧ criticalAoAOf a * 0.8 < angleOfAttack)

/-- Stalled branch condition of the classifier cascade. -/
noncomputable def stalledCond (specs : AircraftSpecs) (a : Aircraft)
    (angleOfAttack speed : ℝ) : Prop :=
  criticalAoAOf a < angleOfAttack ∨ speedRatioOf specs speed < 0.8

/-- Approaching branch condition of the classifier cascade. -/
noncomputable def approachingCond (specs : AircraftSpecs) (a : Aircraft)
    (angleOfAttack speed : ℝ) : Prop :=
  criticalAoAOf a * 0.8 < angleOfAttack ∨ speedRatioOf specs speed < 1.1

/-- Classifier cascade of `AdvancedAerodynamics.calculateStallState` given the
looked-up specs. -/
noncomputable def stallStateVal (specs : AircraftSpecs) (a : Aircraft)
    (angleOfAttack speed : ℝ) : StallState :=
  if deepStallCond specs a angleOfAttack speed then .deep_stall
  else if stalledCond specs a angleOfAttack speed then .stalled
  else if approachingCond specs a angleOfAttack speed then .approaching
  else .clean

/-- `AdvancedAerodynamics.calculateStallState`: looks up
`AIRCRAFT_SPECS[aircraft.type]` (no validation; an unknown type would throw,
modelled as `none`) and runs the cascade.  The `controls` parameter is unused
by the source body. -/
noncomputable def calculateStallState (a : Aircraft) (angleOfAttack speed : ℝ)
    (controls : ControlInputs) : Option StallState :=
  (AIRCRAFT_SPECS a.type).map fun specs =>
    stallStateVal specs a angleOfAttack speed

/-- Modelled from the spec (§4.3): the same cascade but with the speed ratio
taken against the flap- and g-adjusted stall speed
(`airspeed / adjustedStallSpeed`), which the source computes as
`effectiveStallSpeed` yet never uses. -/
noncomputable def specStallState (specs : AircraftSpecs) (a : Aircraft)
    (angleOfAttack speed : ℝ) : StallState :=
  if deepStallAoAOf a < angleOfAttack ∨
      (speed / effectiveStallSpeedOf specs a < 0.7 ∧
        criticalAoAOf a * 0.8 < angleOfAttack) then .deep_stall
  else if criticalAoAOf a < angleOfAttack ∨
      speed / effectiveStallSpeedOf specs a < 0.8 then .stalled
  else if criticalAoAOf a * 0.8 < angleOfAttack ∨
      speed / effectiveStallSpeedOf specs a < 1.1 then .approaching
  else .clean

/-- C2: the stall classifier realises exactly the four-way cascade in priority
order deep_stall, stalled, approaching, clean; in particular whenever the
deep-stall condition holds the result is `deep_stall` even if the stalled
condition also holds. -/
theorem stallState_priority_cascade (a : Aircraft) (α speed : ℝ)
    (c : ControlInputs) (specs : AircraftSpecs)
    (hs : AIRCRAFT_SPECS a.type = some specs) :
    (calculateStallState a α speed c = some .deep_stall ↔
        deepStallCond specs a α speed) ∧
      (calculateStallState a α speed c = some .stalled ↔
        ¬deepStallCond specs a α speed ∧ stalledCond specs a α speed) ∧
      (calculateStallState a α speed c = some .approaching ↔
        ¬deepStallCond specs a α speed ∧ ¬stalledCond specs a α speed ∧
          approachingCond specs a α speed) ∧
      (calculateStallState a α speed c = some .clean ↔
        ¬deepStallCond specs a α speed ∧ ¬stalledCond specs a α speed ∧
          ¬approachingCond specs a α speed) := by
  rw [calculateStallState, hs]
  simp only [Option.map_some', Option.some.injEq, stallStateVal]
  split_ifs with hd hst hap <;> simp_all

/-- Concrete aircraft used by the C2 witness. -/
def c2Aircraft : Aircraft :=
  { id := "w", type := "cessna172", position := ⟨0, 0, 0⟩,
    rotation := ⟨0, 0, 0⟩, velocity := ⟨0, 0, 0⟩, fuel := 0, damage := 0,
    engineRPM := 0, throttle := 0, altitude := 1000, airspeed := 0,
    verticalSpeed := 0, heading := 0, flaps := 0, landingGear := false,
    brakes := false, gForce := 1 }

/-- Concrete controls used by the C2 witness. -/
def c2Controls : ControlInputs := ⟨0, 0, 0, 0, 0, false, false, false⟩

/-- Witness for C2: a cessna input satisfying both the deep-stall and stalled
conditions (angle of attack 0.5 exceeds both 0.42 and 0.30) classifies as
deep_stall. -/
theorem stallState_priority_cascade_witness :
    calculateStallState c2Aircraft 0.5 100 c2Controls = some .deep_stall := by
  have h := stallState_priority_cascade c2Aircraft 0.5 100 c2Controls
    cessna172Specs (by simp [AIRCRAFT_SPECS, c2Aircraft])
  apply h.1.mpr
  simp only [deepStallCond]
  left
  simp only [deepStallAoAOf, c2Aircraft]
  have hf : ("cessna172" = "f16") = False := by simp
  have hb : ("cessna172" = "boeing737") = False := by simp
  simp only [hf, hb, if_false]
  norm_num

/-- String fact reused when reducing the per-type branches. -/
theorem cessna_ne_f16 : ("cessna172" = "f16") = False := by simp

/-- String fact reused when reducing the per-type branches. -/
theorem cessna_ne_boeing : ("cessna172" = "boeing737") = False := by simp

/-- Concrete aircraft for C5: cessna with full flaps at 1 g. -/
def c5Aircraft : Aircraft :=
  { id := "c5", type := "cessna172", position := ⟨0, 0, 0⟩,
    rotation := ⟨0, 0, 0⟩, velocity := ⟨0, 0, 0⟩, fuel := 0, damage := 0,
    engineRPM := 0, throttle := 0, altitude := 1000, airspeed := 0,
    verticalSpeed := 0, heading := 0, flaps := 40, landingGear := false,
    brakes := false, gForce := 1 }

/-- Concrete controls for C5. -/
def c5Controls : ControlInputs := ⟨0, 0, 0, 0, 40, false, false, false⟩

set_option maxHeartbeats 1000000 in
/-- C5 (code-bug evidence): at airspeed 18.125 m/s, zero angle of attack, full
flaps and 1 g, the source classifier returns `stalled` because its speed ratio
18.125 / (87/3.6) = 0.75 divides by the unadjusted stall speed, while the
same cascade on the adjusted ratio 18.125 / ((87/3.6)·0.7·√|1|) = 15/14
returns `approaching`; the adjusted stall speed computed (and dropped) by the
source differs from the unadjusted one. -/
theorem stall_ratio_ignores_adjusted_stall_speed :
    calculateStallState c5Aircraft 0 18.125 c5Controls = some .stalled ∧
      specStallState cessna172Specs c5Aircraft 0 18.125 = .approaching ∧
      effectiveStallSpeedOf cessna172Specs c5Aircraft ≠
        cessna172Specs.stallSpeed / 3.6 := by
  have hsqrt : Real.sqrt |(1:ℝ)| = 1 := by
    rw [abs_one, Real.sqrt_one]
  refine ⟨?_, ?_, ?_⟩
  · have hD : ¬deepStallCond cessna172Specs c5Aircraft 0 18.125 := by
      simp only [deepStallCond, deepStallAoAOf, criticalAoAOf, speedRatioOf,
        c5Aircraft, cessna172Specs, cessna_ne_f16, cessna_ne_boeing, if_false]
      norm_num
    have hS : stalledCond cessna172Specs c5Aircraft 0 18.125 := by
      simp only [stalledCond, criticalAoAOf, speedRatioOf, c5Aircraft,
        cessna172Specs, cessna_ne_f16, cessna_ne_boeing, if_false]
      right
      norm_num
    rw [calculateStallState,
      show AIRCRAFT_SPECS c5Aircraft.type = some cessna172Specs by
        simp [AIRCRAFT_SPECS, c5Aircraft]]
    rw [Option.map_some', stallStateVal, if_neg hD, if_pos hS]
  · rw [specStallState]
    have heff : effectiveStallSpeedOf cessna172Specs c5Aircraft =
        87 / 3.6 * 0.7 := by
      simp only [effectiveStallSpeedOf, c5Aircraft, cessna172Specs, hsqrt]
      norm_num
    rw [heff]
    have hcrit : criticalAoAOf c5Aircraft = 0.4 := by
      simp only [criticalAoAOf, c5Aircraft, cessna_ne_f16, cessna_ne_boeing,
        if_false]
      norm_num
    have hdeep : deepStallAoAOf c5Aircraft = 0.42 := by
      simp only [deepStallAoAOf, c5Aircraft, cessna_ne_f16, cessna_ne_boeing,
        if_false]
    have hD : ¬(deepStallAoAOf c5Aircraft < 0 ∨
        ((18.125 : ℝ) / (87 / 3.6 * 0.7) < 0.7 ∧
          criticalAoAOf c5Aircraft * 0.8 < 0)) := by
      rw [hcrit, hdeep]
      push_neg
      norm_num
    have hS : ¬(criticalAoAOf c5Aircraft < 0 ∨
        (18.125 : ℝ) / (87 / 3.6 * 0.7) < 0.8) := by
      rw [hcrit]
      push_neg
      norm_num
    have hA : criticalAoAOf c5Aircraft * 0.8 < 0 ∨
        (18.125 : ℝ) / (87 / 3.6 * 0.7) < 1.1 := by
      right
      norm_num
    rw [if_neg hD, if_neg hS, if_pos hA]
  · have heff : effectiveStallSpeedOf cessna172Specs c5Aircraft =
        87 / 3.6 * 0.7 := by
      simp only [effectiveStallSpeedOf, c5Aircraft, cessna172Specs, hsqrt]
      norm_num
    rw [heff]
    simp only [cessna172Specs]
    norm_num

/-- `AdvancedAerodynamics.calculateGroundEffect` given the looked-up specs:
wingspan is estimated as `sqrt(wingArea) * 2`, an early return yields 0 above
two wingspans, then the height/wingspan ratio selects the branch. -/
noncomputable def calculateGroundEffectVal (specs : AircraftSpecs)
    (altitude : ℝ) : ℝ :=
  let wingspan := Real.sqrt specs.wingArea * 2
  let heightAboveGround := max 0 altitude
  if wingspan * 2 < heightAboveGround then 0
  else
    let heightToSpanRatio := heightAboveGround / wingspan
    if heightToSpanRatio ≤ 0.1 then 1
    else if heightToSpanRatio ≤ 1 then 1 - heightToSpanRatio
    else max 0 (0.5 - (heightToSpanRatio - 1) * 0.5)

/-- `AdvancedAerodynamics.calculateGroundEffect` with the specs lookup. -/
noncomputable def calculateGroundEffect (a : Aircraft) : Option ℝ :=
  (AIRCRAFT_SPECS a.type).map fun specs =>
    calculateGroundEffectVal specs a.altitude

/-- The height-above-ground to wingspan ratio used by the ground-effect rule. -/
noncomputable def heightToSpanRatioOf (specs : AircraftSpecs)
    (altitude : ℝ) : ℝ :=
  max 0 altitude / (Real.sqrt specs.wingArea * 2)

/-- Cessna at exactly one wingspan of altitude (ratio 1). -/
noncomputable def c7AircraftA : Aircraft :=
  { id := "c7a", type := "cessna172", position := ⟨0, 0, 0⟩,
    rotation := ⟨0, 0, 0⟩, velocity := ⟨0, 0, 0⟩, fuel := 0, damage := 0,
    engineRPM := 0, throttle := 0, altitude := Real.sqrt 16.2 * 2,
    airspeed := 0, verticalSpeed := 0, heading := 0, flaps := 0,
    landingGear := false, brakes := false, gForce := 1 }

/-- Cessna at one and a half wingspans of altitude (ratio 1.5). -/
noncomputable def c7AircraftB : Aircraft :=
  { id := "c7b", type := "cessna172", position := ⟨0, 0, 0⟩,
    rotation := ⟨0, 0, 0⟩, velocity := ⟨0, 0, 0⟩, fuel := 0, damage := 0,
    engineRPM := 0, throttle := 0, altitude := Real.sqrt 16.2 * 3,
    airspeed := 0, verticalSpeed := 0, heading := 0, flaps := 0,
    landingGear := false, brakes := false, gForce := 1 }

/-- C7 counterexample: the ground effect is 0 at height/wingspan ratio 1 but
0.25 at the larger ratio 1.5, so it is not non-increasing in the ratio and
does not stay at 0 past the end of the linear-decay segment. -/
theorem groundEffect_jump_counterexample :
    c7AircraftA.altitude < c7AircraftB.altitude ∧
      calculateGroundEffect c7AircraftA = some 0 ∧
      calculateGroundEffect c7AircraftB = some 0.25 := by
  have hs : (0:ℝ) < Real.sqrt 16.2 := Real.sqrt_pos.mpr (by norm_num)
  have hsne : Real.sqrt 16.2 ≠ 0 := ne_of_gt hs
  refine ⟨by simp only [c7AircraftA, c7AircraftB]; nlinarith, ?_, ?_⟩
  · rw [calculateGroundEffect,
      show AIRCRAFT_SPECS c7AircraftA.type = some cessna172Specs by
        simp [AIRCRAFT_SPECS, c7AircraftA]]
    rw [Option.map_some']
    congr 1
    rw [calculateGroundEffectVal]
    have hw : Real.sqrt cessna172Specs.wingArea = Real.sqrt 16.2 := by
      simp [cessna172Specs]
    simp only [c7AircraftA, hw]
    have hmax : max 0 (Real.sqrt 16.2 * 2) = Real.sqrt 16.2 * 2 :=
      max_eq_right (by positivity)
    rw [hmax, if_neg (by nlinarith)]
    have hratio : Real.sqrt 16.2 * 2 / (Real.sqrt 16.2 * 2) = 1 :=
      div_self (by positivity)
    rw [hratio, if_neg (by norm_num), if_pos (by norm_num)]
    norm_num
  · rw [calculateGroundEffect,
      show AIRCRAFT_SPECS c7AircraftB.type = some cessna172Specs by
        simp [AIRCRAFT_SPECS, c7AircraftB]]
    rw [Option.map_some']
    congr 1
    rw [calculateGroundEffectVal]
    have hw : Real.sqrt cessna172Specs.wingArea = Real.sqrt 16.2 := by
      simp [cessna172Specs]
    simp only [c7AircraftB, hw]
    have hmax : max 0 (Real.sqrt 16.2 * 3) = Real.sqrt 16.2 * 3 :=
      max_eq_right (by positivity)
    rw [hmax, if_neg (by nlinarith)]
    have hratio : Real.sqrt 16.2 * 3 / (Real.sqrt 16.2 * 2) = 1.5 := by
      field_simp
      ring
    rw [hratio, if_neg (by norm_num), if_neg (by norm_num)]
    norm_num

/-- C7 amended: for positive wing area the ground effect lies in [0, 1],
equals 1 exactly when the ratio is at most 0.1, decays linearly as `1 - r` on
(0.1, 1], equals `0.5 - (r-1)·0.5` on (1, 2) (jumping back up to just below
0.5 right after the linear segment reaches 0 at ratio 1), and is 0 from
ratio 2 on. -/
theorem groundEffectVal_characterization (specs : AircraftSpecs) (alt : ℝ)
    (hw : 0 < specs.wingArea) :
    (0 ≤ calculateGroundEffectVal specs alt ∧
        calculateGroundEffectVal specs alt ≤ 1) ∧
      (calculateGroundEffectVal specs alt = 1 ↔
        heightToSpanRatioOf specs alt ≤ 0.1) ∧
      (2 ≤ heightToSpanRatioOf specs alt →
        calculateGroundEffectVal specs alt = 0) ∧
      (0.1 < heightToSpanRatioOf specs alt →
        heightToSpanRatioOf specs alt ≤ 1 →
        calculateGroundEffectVal specs alt =
          1 - heightToSpanRatioOf specs alt) ∧
      (1 < heightToSpanRatioOf specs alt →
        heightToSpanRatioOf specs alt < 2 →
        calculateGroundEffectVal specs alt =
          0.5 - (heightToSpanRatioOf specs alt - 1) * 0.5) := by
  have hsp : (0:ℝ) < Real.sqrt specs.wingArea := Real.sqrt_pos.mpr hw
  have hwpos : (0:ℝ) < Real.sqrt specs.wingArea * 2 := by positivity
  have hh0 : (0:ℝ) ≤ max 0 alt := le_max_left 0 alt
  have hr0 : (0:ℝ) ≤ heightToSpanRatioOf specs alt := by
    rw [heightToSpanRatioOf]
    positivity
  have hearly : (Real.sqrt specs.wingArea * 2 * 2 < max 0 alt) ↔
      2 < heightToSpanRatioOf specs alt := by
    rw [heightToSpanRatioOf, lt_div_iff hwpos]
    constructor <;> intro hx <;> nlinarith
  have hrdef : max 0 alt / (Real.sqrt specs.wingArea * 2) =
      heightToSpanRatioOf specs alt := rfl
  rw [calculateGroundEffectVal]
  simp only [hrdef]
  split_ifs with he h01 h1
  · rw [hearly] at he
    refine ⟨⟨le_refl 0, by norm_num⟩, ?_, fun _ => rfl, ?_, ?_⟩
    · constructor
      · intro h0
        norm_num at h0
      · intro hle
        linarith
    · intro _ hle
      linarith
    · intro _ hlt
      linarith
  · rw [hearly, not_lt] at he
    refine ⟨⟨by norm_num, le_refl 1⟩, ?_, ?_, ?_, ?_⟩
    · exact ⟨fun _ => h01, fun _ => rfl⟩
    · intro h2
      linarith
    · intro hgt _
      linarith
    · intro hgt _
      linarith
  · rw [hearly, not_lt] at he
    rw [not_le] at h01
    refine ⟨⟨by linarith, by linarith⟩, ?_, ?_, fun _ _ => rfl, ?_⟩
    · constructor
      · intro hval
        linarith
      · intro hle
        linarith
    · intro h2
      linarith
    · intro hgt _
      linarith
  · rw [hearly, not_lt] at he
    rw [not_le] at h01 h1
    have hle2 : heightToSpanRatioOf specs alt ≤ 2 := he
    refine ⟨⟨le_max_left 0 _, ?_⟩, ?_, ?_, ?_, ?_⟩
    · apply max_le (by norm_num)
      linarith
    · constructor
      · intro hval
        have : max 0 (0.5 - (heightToSpanRatioOf specs alt - 1) * 0.5) ≤ 0.5 := by
          apply max_le (by norm_num)
          linarith
        rw [hval] at this
        linarith
      · intro hle
        linarith
    · intro h2
      have h2eq : heightToSpanRatioOf specs alt = 2 := le_antisymm hle2 h2
      rw [h2eq]
      norm_num
    · intro _ hle
      linarith
    · intro _ hlt
      rw [max_eq_right]
      linarith

/-- Witness for C7 amended: a cessna on the ground (ratio 0) has full ground
effect 1. -/
theorem groundEffectVal_characterization_witness :
    calculateGroundEffectVal cessna172Specs 0 = 1 := by
  have h := groundEffectVal_characterization cessna172Specs 0
    (by norm_num [cessna172Specs])
  apply h.2.1.mpr
  rw [heightToSpanRatioOf]
  simp
  norm_num

/-- `spinRecovery` record of `AdvancedAerodynamicState`. -/
structure SpinRecovery where
  required : Bool
  technique : String
  power : ℝ
  controls : ControlInputs

/-- `AdvancedAerodynamicState` of the advanced aerodynamics module. -/
structure AdvancedAerodynamicState where
  stallState : StallState
  spinType : SpinType
  groundEffect : ℝ
  compressibilityFactor : ℝ
  wakeStrength : ℝ
  turbulenceLevel : ℝ
  gLoading : ℝ
  stallWarning : Bool
  spinRecovery : SpinRecovery

/-- `AdvancedAerodynamics.calculateAngleOfAttack`.  three.js
`aircraft.velocity.normalize()` normalizes the aircraft velocity IN PLACE, so
the mutated velocity is returned alongside the angle. -/
noncomputable def calculateAngleOfAttack (a : Aircraft) : ℝ × Vec3 :=
  let velocity := a.velocity.normalize
  (Real.arccos (velocity.dot (applyEuler ⟨0, 0, -1⟩ a.rotation)), velocity)

/-- `AdvancedAerodynamics.calculateSideslipAngle`; same in-place
normalization. -/
noncomputable def calculateSideslipAngle (a : Aircraft) : ℝ × Vec3 :=
  let velocity := a.velocity.normalize
  (Real.arcsin (velocity.dot (applyEuler ⟨1, 0, 0⟩ a.rotation)), velocity)

/-- `AdvancedAerodynamics.calculateSpinState`; `aircraft.velocity.y` here
reads the already-normalized velocity. -/
noncomputable def calculateSpinState (a : Aircraft) (stallState : StallState)
    (sideslipAngle : ℝ) (controls : ControlInputs) : SpinType :=
  if stallState ≠ .stalled ∧ stallState ≠ .deep_stall then .none
  else
    let yawRate := |a.velocity.y|
    let rollRate := |controls.roll|
    if 0.5 < yawRate ∧ 0.3 < rollRate ∧ 0.2 < |sideslipAngle| then
      if stallState = .deep_stall ∧ 1.0 < yawRate then .flat
      else if 0.8 < yawRate then .developed
      else .incipient
    else .none

/-- `AdvancedAerodynamics.getSoundSpeed`. -/
noncomputable def getSoundSpeed (altitude : ℝ) : ℝ :=
  Real.sqrt (1.4 * 287 * (288.15 - altitude * 0.0065))

/-- `AdvancedAerodynamics.calculateCompressibilityEffect`. -/
noncomputable def calculateCompressibilityEffect (a : Aircraft)
    (speed altitude : ℝ) : ℝ :=
  let mach := speed / getSoundSpeed altitude
  if mach < 0.3 then 1
  else if mach < 0.7 then 1 + (mach - 0.3) * 0.1
  else if mach < 1 then 1.04 + (mach - 0.7) / 0.3 * 0.3
  else 1.5 + (mach - 1) * 0.2

/-- `AdvancedAerodynamics.calculateWakeStrength`; the speed read here is the
length of the (already normalized) velocity. -/
noncomputable def calculateWakeStrength (a : Aircraft)
    (weather : WeatherConditions) : ℝ :=
  max 0 (a.velocity.length * 0.01 - weather.windSpeed / 50)

/-- `AdvancedAerodynamics.calculateTurbulence`. -/
noncomputable def calculateTurbulence (a : Aircraft)
    (weather : WeatherConditions) : ℝ :=
  let t0 := weather.turbulence
  let t1 := if a.altitude < 1000 then t0 + 0.2
    else if 10000 < a.altitude then t0 + 0.1 else t0
  let speed := a.velocity.length
  let t2 := if 200 < speed then t1 + (speed - 200) * 0.001 else t1
  min 1 t2

/-- `AdvancedAerodynamics.calculateGLoading`. -/
noncomputable def calculateGLoading (a : Aircraft) (deltaTime : ℝ) : ℝ :=
  1 + a.velocity.y * (1 / deltaTime) / 9.81

/-- `AdvancedAerodynamics.shouldTriggerStallWarning` (speed and type are
unused by the source body). -/
noncomputable def shouldTriggerStallWarning (stallState : StallState)
    (speed : ℝ) (aircraftType : String) : Bool :=
  stallState = .approaching ∨ stallState = .stalled

/-- JavaScript `Math.sign`. -/
noncomputable def jsSign (x : ℝ) : ℝ := if 0 < x then 1 else if x < 0 then -1 else 0

/-- `AdvancedAerodynamics.calculateSpinRecovery`. -/
noncomputable def calculateSpinRecovery (a : Aircraft)
    (stallState : StallState) (spinType : SpinType)
    (controls : ControlInputs) : SpinRecovery :=
  if spinType = .none then
    ⟨false, "normal", controls.throttle, controls⟩
  else if spinType = .incipient then
    ⟨true, "Reduce power, opposite rudder, forward stick", 0.1,
      { controls with
          throttle := 0.1
          yaw := -(jsSign controls.yaw) * 0.8
          pitch := -0.5 }⟩
  else if spinType = .developed then
    ⟨true, "POWER IDLE, full opposite rudder, stick forward", 0,
      { controls with
          throttle := 0
          yaw := -(jsSign controls.yaw) * 1
          pitch := -0.8 }⟩
  else
    ⟨true,
      "Emergency procedure: Full forward stick, opposite rudder, may require parachute",
      0,
      { controls with
          throttle := 0
          yaw := -(jsSign controls.yaw) * 1
          pitch := -1 }⟩

/-- `AdvancedAerodynamics.calculateAerodynamicState`.  The pair's second
component is the aircraft velocity after the call: the two angle helpers
normalize it in place before the specs lookup can fail, and every later
reader (`spin`, `wake`, `turbulence`, `gLoading`) sees the normalized
vector.  An unknown type makes the JS throw inside `calculateStallState`,
modelled as `none`. -/
noncomputable def calculateAerodynamicState (a : Aircraft)
    (controls : ControlInputs) (weather : WeatherConditions) (deltaTime : ℝ) :
    Option AdvancedAerodynamicState × Vec3 :=
  let speed := a.velocity.length
  let altitude := a.altitude
  let aoa := calculateAngleOfAttack a
  let a1 : Aircraft := { a with velocity := aoa.2 }
  let ssl := calculateSideslipAngle a1
  let a2 : Aircraft := { a1 with velocity := ssl.2 }
  match AIRCRAFT_SPECS a.type with
  | none => (none, a2.velocity)
  | some specs =>
    let stallState := stallStateVal specs a2 aoa.1 speed
    let spinType := calculateSpinState a2 stallState ssl.1 controls
    (some
      { stallState := stallState
        spinType := spinType
        groundEffect := calculateGroundEffectVal specs a2.altitude
        compressibilityFactor := calculateCompressibilityEffect a2 speed altitude
        wakeStrength := calculateWakeStrength a2 weather
        turbulenceLevel := calculateTurbulence a2 weather
        gLoading := calculateGLoading a2 deltaTime
        stallWarning := shouldTriggerStallWarning stallState speed a2.type
        spinRecovery := calculateSpinRecovery a2 stallState spinType controls },
      a2.velocity)

/-- `AdvancedAerodynamics.calculateBasicLift`. -/
noncomputable def calculateBasicLift (specs : AircraftSpecs) (a : Aircraft) :
    Vec3 :=
  ⟨0, a.velocity.length * a.velocity.length * 0.1 * specs.liftCoefficient, 0⟩

/-- `AdvancedAerodynamics.calculateBasicDrag` (uses `clone()`, so no
mutation). -/
noncomputable def calculateBasicDrag (specs : AircraftSpecs) (a : Aircraft) :
    Vec3 :=
  a.velocity.normalize.multiplyScalar
    (-(a.velocity.length * a.velocity.length * 0.05 * specs.dragCoefficient))

/-- `AdvancedAerodynamics.calculateAdvancedForces`.  `Math.random()` draws are
modelled by the ambient oracle `rand`. -/
noncomputable def calculateAdvancedForces (specs : AircraftSpecs)
    (a : Aircraft) (controls : ControlInputs)
    (state : AdvancedAerodynamicState) (rand : ℕ → ℝ) : Vec3 :=
  let basicLift := calculateBasicLift specs a
  let basicDrag := calculateBasicDrag specs a
  let lift1 := if 0 < state.groundEffect then
      basicLift.multiplyScalar (1 + state.groundEffect * 0.4) else basicLift
  let drag1 := if 0 < state.groundEffect then
      basicDrag.multiplyScalar (1 - state.groundEffect * 0.2) else basicDrag
  let drag2 := drag1.multiplyScalar state.compressibilityFactor
  let inStall := state.stallState = .stalled ∨ state.stallState = .deep_stall
  let lift2 := if inStall then lift1.multiplyScalar (0.3 + rand 0 * 0.4)
    else lift1
  let drag3 := if inStall then drag2.multiplyScalar 2 else drag2
  let force0 : Vec3 := ⟨0, 0, 0⟩
  let force1 := if 0 < state.turbulenceLevel then
      force0.add ⟨(rand 1 - 0.5) * state.turbulenceLevel * 1000,
        (rand 2 - 0.5) * state.turbulenceLevel * 1000,
        (rand 3 - 0.5) * state.turbulenceLevel * 500⟩
    else force0
  (force1.add lift2).add drag3

/-- `AdvancedAerodynamics.calculateAdvancedMoments`; the `Date.now()` clock
read is the ambient parameter `now`. -/
noncomputable def calculateAdvancedMoments (a : Aircraft)
    (controls : ControlInputs) (state : AdvancedAerodynamicState)
    (now : ℝ) : Vec3 :=
  let pitchMoment := controls.pitch * 50000
  let rollMoment := controls.roll * 30000
  let yawMoment := controls.yaw * 20000
  let moment :=
    if state.stallState = .stalled ∨ state.stallState = .deep_stall then
      let effectiveness : ℝ :=
        if state.stallState = .deep_stall then 0.1 else 0.3
      Vec3.mk (rollMoment * effectiveness) (pitchMoment * effectiveness)
        (yawMoment * effectiveness)
    else Vec3.mk rollMoment pitchMoment yawMoment
  if state.spinType ≠ .none then
    let spinMoment : ℝ := if state.spinType = .flat then 10000 else 5000
    moment.add ⟨Real.sin (now * 0.01) * spinMoment, 0,
      Real.cos (now * 0.01) * spinMoment⟩
  else moment

/-- `AdvancedAerodynamics.generateWarnings`. -/
noncomputable def generateWarnings (state : AdvancedAerodynamicState)
    (a : Aircraft) : List String :=
  (if state.stallWarning then ["STALL WARNING"] else []) ++
    (if state.stallState = .stalled then ["STALL! Lower nose, add power!"]
      else []) ++
    (if state.stallState = .deep_stall then
      ["DEEP STALL! Emergency recovery required!"] else []) ++
    (if state.spinType ≠ .none then
      [String.append "SPIN DETECTED: " state.spinRecovery.technique] else []) ++
    (if 6 < state.gLoading then ["HIGH G-FORCE WARNING"] else []) ++
    (if 1.3 < state.compressibilityFactor then ["COMPRESSIBILITY EFFECTS"]
      else [])

/-- Result record of `calculateAdvancedAerodynamics`. -/
structure AAResult where
  forces : Vec3
  moments : Vec3
  state : AdvancedAerodynamicState
  warnings : List String

/-- `AdvancedAerodynamics.calculateAdvancedAerodynamics`.  The ambient
`Math.random()` stream and `Date.now()` clock are passed explicitly; the
second component of the pair is the aircraft velocity after the call (the
`previousState` map write is state the module never reads back). -/
noncomputable def calculateAdvancedAerodynamics (a : Aircraft)
    (controls : ControlInputs) (weather : WeatherConditions) (deltaTime : ℝ)
    (rand : ℕ → ℝ) (now : ℝ) : Option AAResult × Vec3 :=
  let sp := calculateAerodynamicState a controls weather deltaTime
  match sp.1 with
  | none => (none, sp.2)
  | some state =>
    match AIRCRAFT_SPECS a.type with
    | none => (none, sp.2)
    | some specs =>
      let a2 : Aircraft := { a with velocity := sp.2 }
      (some
        { forces := calculateAdvancedForces specs a2 controls state rand
          moments := calculateAdvancedMoments a2 controls state now
          state := state
          warnings := generateWarnings state a2 }, sp.2)

/-- The post-call velocity of the advanced aerodynamics entry point is the
(twice) in-place-normalized input velocity, for every input. -/
theorem calculateAdvancedAerodynamics_snd (a : Aircraft)
    (controls : ControlInputs) (weather : WeatherConditions) (deltaTime : ℝ)
    (rand : ℕ → ℝ) (now : ℝ) :
    (calculateAdvancedAerodynamics a controls weather deltaTime rand now).2 =
      a.velocity.normalize.normalize := by
  rw [calculateAdvancedAerodynamics, calculateAerodynamicState]
  cases h : AIRCRAFT_SPECS a.type <;>
    simp [calculateAngleOfAttack, calculateSideslipAngle, h]

/-- C4 amended: the classifier's outputs are a function of the explicit inputs
plus the ambient random stream and clock, but the call mutates the aircraft
state: after every call the velocity field holds the in-place-normalized
original velocity (so the state is unchanged only when the velocity already
has length 1 or 0). -/
theorem advancedAerodynamics_velocity_after_call (a : Aircraft)
    (controls : ControlInputs) (weather : WeatherConditions) (deltaTime : ℝ)
    (rand : ℕ → ℝ) (now : ℝ) :
    (calculateAdvancedAerodynamics a controls weather deltaTime rand now).2 =
      a.velocity.normalize.normalize :=
  calculateAdvancedAerodynamics_snd a controls weather deltaTime rand now

/-- Concrete aircraft for C4 with velocity (3, 4, 0). -/
noncomputable def c4Aircraft : Aircraft :=
  { id := "c4", type := "cessna172", position := ⟨0, 0, 0⟩,
    rotation := ⟨0, 0, 0⟩, velocity := ⟨3, 4, 0⟩, fuel := 0, damage := 0,
    engineRPM := 0, throttle := 0, altitude := 1000, airspeed := 0,
    verticalSpeed := 0, heading := 0, flaps := 0, landingGear := false,
    brakes := false, gForce := 1 }

/-- Concrete controls for C4. -/
def c4Controls : ControlInputs := ⟨0, 0, 0, 0, 0, false, false, false⟩

/-- Concrete weather for C4. -/
noncomputable def c4Weather : WeatherConditions :=
  ⟨0, 0, 10, 0, "none", 0, 15, 1013⟩

/-- Helper: the normalization chain applied to (3, 4, 0). -/
theorem c4_normalize_eval :
    (Vec3.mk 3 4 0).normalize.normalize = Vec3.mk (3 * (1 / 5) * 1) (4 * (1 / 5) * 1) (0 * (1 / 5) * 1) := by
  have h5 : (Vec3.mk 3 4 0).length = 5 := by
    rw [Vec3.length, show ((3:ℝ) * 3 + 4 * 4 + 0 * 0) = 5 ^ 2 by norm_num]
    exact Real.sqrt_sq (by norm_num)
  have hv1 : (Vec3.mk 3 4 0).normalize =
      Vec3.mk (3 * (1 / 5)) (4 * (1 / 5)) (0 * (1 / 5)) := by
    rw [Vec3.normalize, h5, if_neg (by norm_num), Vec3.multiplyScalar]
  rw [hv1]
  have h1 : (Vec3.mk (3 * (1 / 5)) (4 * (1 / 5)) ((0:ℝ) * (1 / 5))).length = 1 := by
    rw [Vec3.length,
      show (3 * (1 / 5) * (3 * (1 / 5)) + 4 * (1 / 5) * (4 * (1 / 5)) +
        (0:ℝ) * (1 / 5) * (0 * (1 / 5))) = 1 ^ 2 by norm_num]
    exact Real.sqrt_sq (by norm_num)
  rw [Vec3.normalize, h1, if_neg (by norm_num), Vec3.multiplyScalar]
  simp only [Vec3.mk.injEq]
  norm_num

/-- C4 counterexample: calling the advanced aerodynamics classifier on an
aircraft with velocity (3, 4, 0) leaves the aircraft with the normalized
velocity (0.6, 0.8, 0): the call does not leave the state unchanged. -/
theorem aerodynamic_state_mutates_velocity :
    (calculateAdvancedAerodynamics c4Aircraft c4Controls c4Weather 0.016
        (fun _ => 0.5) 0).2 ≠ c4Aircraft.velocity := by
  rw [calculateAdvancedAerodynamics_snd]
  show c4Aircraft.velocity.normalize.normalize ≠ c4Aircraft.velocity
  have hv : c4Aircraft.velocity = Vec3.mk 3 4 0 := rfl
  rw [hv, c4_normalize_eval]
  intro hcontra
  have hx := congrArg Vec3.x hcontra
  simp only [Vec3.x] at hx
  norm_num at hx

end AdvancedAero

section Integrator

open Classical

/-- `aerodynamics.ts` `calculateGroundForces` (lines 166-212): active only on
or near the ground with gear down; cancels net downward force and applies
rolling or braking friction against horizontal motion. -/
noncomputable def calculateGroundForces (a : Aircraft) (velocity : Vec3)
    (controls : ControlInputs) (totalForce : Vec3) : Vec3 :=
  if 1 < a.altitude ∨ a.landingGear = false then ⟨0, 0, 0⟩
  else if a.altitude ≤ 0.6 then
    let gy := if totalForce.y < 0 then -totalForce.y else 0
    let horizontalVelocity : Vec3 := ⟨velocity.x, 0, velocity.z⟩
    let speed := horizontalVelocity.length
    if 0.01 < speed then
      let rollingResistance : ℝ := if controls.brakes then 0.15 else 0.0002
      let normalForce : ℝ :=
        if a.type = "boeing737" then 245250
        else if a.type = "f16" then 58860 else 6377
      (Vec3.mk 0 gy 0).add
        (horizontalVelocity.normalize.multiplyScalar
          (-rollingResistance * normalForce))
    else ⟨0, gy, 0⟩
  else ⟨0, 0, 0⟩

/-- Ground level (gear height) by raw type string (lines 306-313; the unused
initial 0.5 is overwritten in every branch). -/
noncomputable def groundLevelOf (t : String) : ℝ :=
  if t = "boeing737" then 8.0 else if t = "f16" then 4.0 else 2.5

/-- Wind vector from the weather (lines 251-255). -/
noncomputable def windVectorOf (w : WeatherConditions) : Vec3 :=
  ⟨Real.sin (w.windDirection * Real.pi / 180) * w.windSpeed, 0,
    Real.cos (w.windDirection * Real.pi / 180) * w.windSpeed⟩

/-- Body forward axis (line 246). -/
noncomputable def forwardAxis (a : Aircraft) : Vec3 :=
  applyEuler ⟨0, 0, -1⟩ a.rotation

/-- Body up axis (line 247). -/
noncomputable def upAxis (a : Aircraft) : Vec3 := applyEuler ⟨0, 1, 0⟩ a.rotation

/-- Body right axis (line 248). -/
noncomputable def rightAxis (a : Aircraft) : Vec3 :=
  applyEuler ⟨1, 0, 0⟩ a.rotation

/-- Wind-relative velocity (line 256). -/
noncomputable def relativeVelocityOf (a : Aircraft)
    (w : WeatherConditions) : Vec3 :=
  a.velocity.sub (windVectorOf w)

/-- Integrator angle of attack (lines 259-263). -/
noncomputable def integratorAngleOfAttack (a : Aircraft)
    (w : WeatherConditions) : ℝ :=
  let velocityInPlane := (relativeVelocityOf a w).projectOnPlane (rightAxis a)
  atan2 (velocityInPlane.dot (upAxis a))
    (-(velocityInPlane.dot (forwardAxis a)))

/-- Sum of lift, drag (both flap-scaled in place), thrust and gravity
(lines 266-281). -/
noncomputable def totalForcePre (a : Aircraft) (c : ControlInputs)
    (w : WeatherConditions) (specs : AircraftSpecs) : Vec3 :=
  let airDensity := getAirDensity a.altitude
  let lift := calculateLift (relativeVelocityOf a w) airDensity specs.wingArea
    specs.liftCoefficient (integratorAngleOfAttack a w) a
  let drag := calculateDrag (relativeVelocityOf a w) airDensity specs.wingArea
    specs.dragCoefficient a
  let thrust := calculateThrust c.throttle specs.enginePower airDensity
    a.altitude (forwardAxis a) a.airspeed (validateAircraftType a.type)
  let gravity := calculateGravity specs.weight
  let flapFactor := 1 + a.flaps / 40 * 0.5
  (((lift.multiplyScalar flapFactor).add
      (drag.multiplyScalar (1 + a.flaps / 40 * 0.5))).add thrust).add gravity

/-- Net force including ground reaction (lines 283-285). -/
noncomputable def totalForceAll (a : Aircraft) (c : ControlInputs)
    (w : WeatherConditions) (specs : AircraftSpecs) : Vec3 :=
  (totalForcePre a c w specs).add
    (calculateGroundForces a a.velocity c (totalForcePre a c w specs))

/-- The `totalForce` vector after both in-place scalings
(`divideScalar(weight)` then `multiplyScalar(dt)`, lines 288 and 296-298):
three.js aliasing makes the later g-force reads (lines 344 and 391) see this
value, not the raw net force. -/
noncomputable def accDt (a : Aircraft) (c : ControlInputs)
    (w : WeatherConditions) (dt : ℝ) (specs : AircraftSpecs) : Vec3 :=
  ((totalForceAll a c w specs).divideScalar specs.weight).multiplyScalar dt

/-- Velocity after integration, before the ground clamp (line 296). -/
noncomputable def newVelocityPre (a : Aircraft) (c : ControlInputs)
    (w : WeatherConditions) (dt : ℝ) (specs : AircraftSpecs) : Vec3 :=
  a.velocity.add (accDt a c w dt specs)

/-- Projected position before the ground clamp (line 301). -/
noncomputable def newPositionPre (a : Aircraft) (c : ControlInputs)
    (w : WeatherConditions) (dt : ℝ) (specs : AircraftSpecs) : Vec3 :=
  a.position.add ((newVelocityPre a c w dt specs).multiplyScalar dt)

/-- JavaScript remainder `x % y` (truncating division). -/
noncomputable def jsMod (x y : ℝ) : ℝ :=
  x - y * ((if 0 ≤ x / y then ⌊x / y⌋ else ⌈x / y⌉) : ℤ)

/-- The `Partial<Aircraft>` record returned by a successful physics step
(lines 393-408). -/
structure AircraftUpdate where
  position : Vec3
  rotation : EulerRot
  velocity : Vec3
  altitude : ℝ
  airspeed : ℝ
  verticalSpeed : ℝ
  heading : ℝ
  engineRPM : ℝ
  fuel : ℝ
  throttle : ℝ
  flaps : ℝ
  landingGear : Bool
  brakes : Bool
  gForce : ℝ

/-- `aerodynamics.ts` `updateAircraftPhysics` (lines 215-409).  A missing or
empty `type` (JS falsy) returns the empty update, modelled as `none`; any
other type is passed through `validateAircraftType`, which coerces unknown
strings to `cessna172` before the specs lookup. -/
noncomputable def updateAircraftPhysics (a : Aircraft) (c : ControlInputs)
    (w : WeatherConditions) (dt : ℝ) : Option AircraftUpdate :=
  if a.type = "" then none
  else
    match AIRCRAFT_SPECS (validateAircraftType a.type) with
    | none => none
    | some specs =>
      let nvPre := newVelocityPre a c w dt specs
      let npPre := newPositionPre a c w dt specs
      let clamped := npPre.y < groundLevelOf a.type ∧ a.landingGear = true
      let newPosition := if clamped then
          Vec3.mk npPre.x (groundLevelOf a.type) npPre.z else npPre
      let newVelocity := if clamped then
          Vec3.mk nvPre.x (if nvPre.y < 0 then 0 else nvPre.y) nvPre.z
        else nvPre
      let speedFactor := max 0.1 (min 1 (a.airspeed /
        (if a.type = "boeing737" then (200:ℝ) else 50)))
      let onGround := a.altitude < 1 ∧ a.landingGear = true
      let pitchRate : ℝ :=
        if onGround then 0
        else if a.type = "f16" then
          c.pitch * Real.pi / 180 * 180 * speedFactor *
            min 1 (9 / max 1 |(accDt a c w dt specs).y / (specs.weight * 9.81)|)
        else if a.type = "boeing737" then
          c.pitch * Real.pi / 180 * 20 * speedFactor
        else c.pitch * Real.pi / 180 * 30 * speedFactor
      let rollRate : ℝ :=
        if onGround then 0
        else if a.type = "f16" then c.roll * Real.pi / 180 * 270 * speedFactor
        else if a.type = "boeing737" then
          c.roll * Real.pi / 180 * 40 * speedFactor
        else c.roll * Real.pi / 180 * 60 * speedFactor
      let yawRate : ℝ :=
        if onGround then
          c.yaw * Real.pi / 180 * 30 *
            min 1 (a.airspeed / (if a.type = "boeing737" then (50:ℝ) else 30))
        else if a.type = "f16" then c.yaw * Real.pi / 180 * 45 * speedFactor
        else if a.type = "boeing737" then
          c.yaw * Real.pi / 180 * 15 * speedFactor
        else c.yaw * Real.pi / 180 * 20 * speedFactor
      let newRotation : EulerRot := ⟨a.rotation.x + pitchRate * dt,
        a.rotation.y + yawRate * dt, a.rotation.z + rollRate * dt⟩
      let targetRPM : ℝ := if a.type = "boeing737" then c.throttle * 100
        else c.throttle * 2700
      some
        { position := newPosition
          rotation := newRotation
          velocity := newVelocity
          altitude := max 0.5 newPosition.y
          airspeed := (relativeVelocityOf a w).length * 3.6
          verticalSpeed := newVelocity.y
          heading := jsMod (jsMod (newRotation.y * 180 / Real.pi) 360 + 360) 360
          engineRPM := a.engineRPM + (targetRPM - a.engineRPM) * dt * 3
          fuel := max 0 (a.fuel - specs.fuelConsumption / 3600 * c.throttle * dt)
          throttle := c.throttle
          flaps := a.flaps
          landingGear := c.landingGear
          brakes := c.brakes
          gForce := (accDt a c w dt specs).y / (specs.weight * 9.81) + 1 }

/-- After validation the specs lookup always succeeds: unknown types were
already coerced to cessna172. -/
theorem AIRCRAFT_SPECS_validate (t : String) :
    ∃ specs, AIRCRAFT_SPECS (validateAircraftType t) = some specs := by
  rw [validateAircraftType]
  by_cases hv : isValidAircraftType t
  · rw [if_pos hv]
    rw [isValidAircraftType] at hv
    simp only [Bool.or_eq_true, beq_iff_eq] at hv
    rcases hv with (h | h) | h <;> subst h
    · exact ⟨cessna172Specs, by simp [AIRCRAFT_SPECS]⟩
    · exact ⟨boeing737Specs, by simp [AIRCRAFT_SPECS]⟩
    · exact ⟨f16Specs, by simp [AIRCRAFT_SPECS]⟩
  · rw [if_neg hv]
    exact ⟨cessna172Specs, by simp [AIRCRAFT_SPECS]⟩

/-- C1 amended: for every aircraft whose type string is non-empty — known or
unknown — the integrator returns a full update (never the empty error
update): unknown types are coerced to cessna172 by `validateAircraftType`
before the specs lookup, so the `MissingSpecification` error path is
unreachable and no error is surfaced for an unknown type. -/
theorem updateAircraftPhysics_total_for_nonempty_type (a : Aircraft)
    (c : ControlInputs) (w : WeatherConditions) (dt : ℝ) (h : a.type ≠ "") :
    (updateAircraftPhysics a c w dt).isSome = true := by
  rw [updateAircraftPhysics, if_neg h]
  obtain ⟨specs, hs⟩ := AIRCRAFT_SPECS_validate a.type
  rw [hs]
  rfl

/-- Concrete aircraft with the unknown type string "concorde". -/
noncomputable def c1Aircraft : Aircraft :=
  { id := "c1", type := "concorde", position := ⟨0, 1000, 0⟩,
    rotation := ⟨0, 0, 0⟩, velocity := ⟨0, 0, 0⟩, fuel := 100, damage := 0,
    engineRPM := 0, throttle := 0, altitude := 1000, airspeed := 0,
    verticalSpeed := 0, heading := 0, flaps := 0, landingGear := false,
    brakes := false, gForce := 1 }

/-- Concrete aircraft with the unknown type string "f22". -/
noncomputable def c1bAircraft : Aircraft :=
  { id := "c1b", type := "f22", position := ⟨0, 1000, 0⟩,
    rotation := ⟨0, 0, 0⟩, velocity := ⟨0, 0, 0⟩, fuel := 100, damage := 0,
    engineRPM := 0, throttle := 0, altitude := 1000, airspeed := 0,
    verticalSpeed := 0, heading := 0, flaps := 0, landingGear := false,
    brakes := false, gForce := 1 }

/-- Concrete controls for the C1 scenarios. -/
def c1Controls : ControlInputs := ⟨0, 0, 0, 0, 0, false, false, false⟩

/-- Concrete weather for the C1 scenarios. -/
noncomputable def c1Weather : WeatherConditions :=
  ⟨0, 0, 10, 0, "none", 0, 15, 1013⟩

/-- C1 counterexample: with the unknown type "concorde" the integrator does
not return the error (empty) update — the type is coerced to cessna172 and a
full update is produced. -/
theorem unknown_type_coerced_counterexample :
    validateAircraftType "concorde" = "cessna172" ∧
      (updateAircraftPhysics c1Aircraft c1Controls c1Weather 1).isSome =
        true := by
  constructor
  · simp [validateAircraftType, isValidAircraftType]
  · rw [updateAircraftPhysics, if_neg (by simp [c1Aircraft])]
    have hs : AIRCRAFT_SPECS (validateAircraftType c1Aircraft.type) =
        some cessna172Specs := by
      simp [c1Aircraft, validateAircraftType, isValidAircraftType,
        AIRCRAFT_SPECS]
    rw [hs]
    rfl

/-- Witness for C1 amended at the unknown type "f22". -/
theorem updateAircraftPhysics_total_for_nonempty_type_witness :
    c1bAircraft.type ≠ "" ∧
      (updateAircraftPhysics c1bAircraft c1Controls c1Weather 1).isSome =
        true :=
  ⟨by simp [c1bAircraft],
    updateAircraftPhysics_total_for_nonempty_type c1bAircraft c1Controls
      c1Weather 1 (by simp [c1bAircraft])⟩

/-- C10: whenever the physics step produces an update, its `flaps` field
equals the input aircraft's flap angle for every control input — the flap
command in `ControlInputs` is ignored by the integrator. -/
theorem updateAircraftPhysics_preserves_flaps (a : Aircraft)
    (c : ControlInputs) (w : WeatherConditions) (dt : ℝ) :
    (updateAircraftPhysics a c w dt).map (fun u => u.flaps) =
      (updateAircraftPhysics a c w dt).map (fun _ => a.flaps) := by
  rw [updateAircraftPhysics]
  by_cases h : a.type = ""
  · rw [if_pos h]
    rfl
  · rw [if_neg h]
    cases hs : AIRCRAFT_SPECS (validateAircraftType a.type) <;> rfl

/-- C6: when the projected altitude falls below the type's gear height and
the landing gear is deployed, the returned `position.y` equals exactly the
type-specific gear height, and the returned vertical velocity is the
pre-clamp vertical velocity with a negative value zeroed: it is never
negative, and a non-negative (upward) value is preserved unchanged. -/
theorem updateAircraftPhysics_ground_clamp (a : Aircraft) (c : ControlInputs)
    (w : WeatherConditions) (dt : ℝ) (specs : AircraftSpecs)
    (h0 : a.type ≠ "")
    (hs : AIRCRAFT_SPECS (validateAircraftType a.type) = some specs)
    (hclamp : (newPositionPre a c w dt specs).y < groundLevelOf a.type)
    (hgear : a.landingGear = true) :
    (updateAircraftPhysics a c w dt).map (fun u => u.position.y) =
        some (groundLevelOf a.type) ∧
      (updateAircraftPhysics a c w dt).map (fun u => u.velocity.y) =
        some (if (newVelocityPre a c w dt specs).y < 0 then 0
          else (newVelocityPre a c w dt specs).y) ∧
      (0:ℝ) ≤ (if (newVelocityPre a c w dt specs).y < 0 then 0
        else (newVelocityPre a c w dt specs).y) ∧
      (0 ≤ (newVelocityPre a c w dt specs).y →
        (if (newVelocityPre a c w dt specs).y < 0 then 0
          else (newVelocityPre a c w dt specs).y) =
          (newVelocityPre a c w dt specs).y) := by
  have hcond : (newPositionPre a c w dt specs).y < groundLevelOf a.type ∧
      a.landingGear = true := ⟨hclamp, hgear⟩
  refine ⟨?_, ?_, ?_, ?_⟩
  · rw [updateAircraftPhysics, if_neg h0, hs]
    dsimp only
    rw [if_pos hcond]
    rfl
  · rw [updateAircraftPhysics, if_neg h0, hs]
    dsimp only
    rw [if_pos hcond, if_pos hcond]
    rfl
  · split_ifs with hneg
    · norm_num
    · exact not_lt.mp hneg
  · intro hup
    rw [if_neg (not_lt.mpr hup)]

/-- Scenario-B aircraft: cessna at rest at 0.3 m altitude with gear down. -/
noncomputable def c6Aircraft : Aircraft :=
  { id := "c6", type := "cessna172", position := ⟨0, 0.3, 0⟩,
    rotation := ⟨0, 0, 0⟩, velocity := ⟨0, 0, 0⟩, fuel := 0, damage := 0,
    engineRPM := 0, throttle := 0, altitude := 0.3, airspeed := 0,
    verticalSpeed := 0, heading := 0, flaps := 0, landingGear := true,
    brakes := false, gForce := 1 }

/-- Scenario-B controls: zero throttle, gear commanded down. -/
def c6Controls : ControlInputs := ⟨0, 0, 0, 0, 0, true, false, false⟩

/-- Scenario-B weather: calm. -/
noncomputable def c6Weather : WeatherConditions :=
  ⟨0, 0, 10, 0, "none", 0, 15, 1013⟩

/-- Calm weather produces a zero wind vector. -/
theorem c6_wind : windVectorOf c6Weather = ⟨0, 0, 0⟩ := by
  simp [windVectorOf, c6Weather]

/-- The relative velocity of the resting aircraft is zero. -/
theorem c6_rel : relativeVelocityOf c6Aircraft c6Weather = ⟨0, 0, 0⟩ := by
  rw [relativeVelocityOf, c6_wind]
  simp [c6Aircraft, Vec3.sub]

/-- Zero throttle gives zero thrust magnitude in scenario B. -/
theorem c6_thrustMag :
    calculateThrustMag c6Controls.throttle cessna172Specs.enginePower
      (getAirDensity c6Aircraft.altitude) c6Aircraft.altitude
      c6Aircraft.airspeed (validateAircraftType c6Aircraft.type) = 0 := by
  have hv : validateAircraftType c6Aircraft.type = "cessna172" := by
    simp [c6Aircraft, validateAircraftType, isValidAircraftType]
  rw [hv]
  simp [calculateThrustMag, cessna_ne_boeing, cessna_ne_f16, c6Controls]

/-- Pre-ground net force in scenario B: pure weight. -/
theorem c6_totalForcePre :
    totalForcePre c6Aircraft c6Controls c6Weather cessna172Specs =
      ⟨0, -6376.5, 0⟩ := by
  simp only [totalForcePre]
  rw [c6_rel, calculateLift_zero_velocity, calculateDrag_zero_velocity,
    calculateThrust, c6_thrustMag]
  simp [Vec3.add, Vec3.multiplyScalar, calculateGravity, cessna172Specs,
    c6Aircraft, Vec3.mk.injEq]
  norm_num

/-- Ground reaction cancels the weight exactly in scenario B. -/
theorem c6_groundForce :
    calculateGroundForces c6Aircraft c6Aircraft.velocity c6Controls
      ⟨0, -6376.5, 0⟩ = ⟨0, 6376.5, 0⟩ := by
  rw [calculateGroundForces]
  rw [if_neg (by simp [c6Aircraft]; norm_num)]
  rw [if_pos (by simp [c6Aircraft]; norm_num)]
  dsimp only
  rw [if_neg (by simp [c6Aircraft, Vec3.length]; norm_num)]
  rw [if_pos (by norm_num)]
  norm_num

/-- Net force including ground reaction is zero in scenario B. -/
theorem c6_totalAll :
    totalForceAll c6Aircraft c6Controls c6Weather cessna172Specs =
      ⟨0, 0, 0⟩ := by
  rw [totalForceAll, c6_totalForcePre, c6_groundForce]
  simp [Vec3.add]

/-- The integrated velocity increment is zero in scenario B. -/
theorem c6_accDt :
    accDt c6Aircraft c6Controls c6Weather 1 cessna172Specs = ⟨0, 0, 0⟩ := by
  rw [accDt, c6_totalAll]
  simp [Vec3.divideScalar, Vec3.multiplyScalar]

/-- The pre-clamp velocity is zero in scenario B. -/
theorem c6_nv :
    newVelocityPre c6Aircraft c6Controls c6Weather 1 cessna172Specs =
      ⟨0, 0, 0⟩ := by
  rw [newVelocityPre, c6_accDt]
  simp [c6Aircraft, Vec3.add]

/-- The projected altitude is 0.3 m in scenario B. -/
theorem c6_np_y :
    (newPositionPre c6Aircraft c6Controls c6Weather 1 cessna172Specs).y =
      0.3 := by
  rw [newPositionPre, c6_nv]
  simp [c6Aircraft, Vec3.add, Vec3.multiplyScalar]

/-- Witness for C6 (scenario B): projected altitude 0.3 m is below the cessna
gear height 2.5 m with gear down, and one step clamps position.y to the gear
height and returns vertical velocity 0. -/
theorem updateAircraftPhysics_ground_clamp_witness :
    (newPositionPre c6Aircraft c6Controls c6Weather 1 cessna172Specs).y <
        groundLevelOf c6Aircraft.type ∧
      c6Aircraft.landingGear = true ∧
      (updateAircraftPhysics c6Aircraft c6Controls c6Weather 1).map
          (fun u => u.position.y) = some (groundLevelOf c6Aircraft.type) ∧
      (updateAircraftPhysics c6Aircraft c6Controls c6Weather 1).map
          (fun u => u.velocity.y) = some 0 := by
  have hg : groundLevelOf c6Aircraft.type = 2.5 := by
    simp [groundLevelOf, c6Aircraft, cessna_ne_boeing, cessna_ne_f16]
  have hclamp :
      (newPositionPre c6Aircraft c6Controls c6Weather 1 cessna172Specs).y <
        groundLevelOf c6Aircraft.type := by
    rw [c6_np_y, hg]
    norm_num
  have hs : AIRCRAFT_SPECS (validateAircraftType c6Aircraft.type) =
      some cessna172Specs := by
    simp [c6Aircraft, validateAircraftType, isValidAircraftType,
      AIRCRAFT_SPECS]
  have h := updateAircraftPhysics_ground_clamp c6Aircraft c6Controls c6Weather
    1 cessna172Specs (by simp [c6Aircraft]) hs hclamp (by simp [c6Aircraft])
  refine ⟨hclamp, by simp [c6Aircraft], h.1, ?_⟩
  rw [h.2.1, c6_nv]
  simp

end Integrator

end FlightSim
